import Mathlib

/-!
Verification of the DuckBot-DE multi-agent coordination engine
(`duckbot-desktop-services/multi-agent-coordinator.py`).

The Python source is shallowly embedded below.  Modelling conventions:
* Python `float` values (load factors, success rates, scores, timestamps,
  durations) are embedded as `ℚ`, so all formula claims are settled in exact
  arithmetic.
* Capability / specialization tags are a type parameter `σ` with decidable
  equality (the source uses strings; concrete examples instantiate
  `σ := String` or `σ := ℕ`).  Python `set(...)` on tag lists becomes
  `List.toFinset`.
* The AI execution capability (`duckbot_ai.enhanced_request`) is an external
  collaborator; each call site receives its outcome as an explicit
  `Except String AIResult` argument — `Except.error e` models the call raising
  an exception with message `e`, `Except.ok r` models it returning the dict
  `r`. The persistence adapter (SQLite writes) is modelled as non-raising, and
  `DUCKBOT_AVAILABLE` is taken as true (the availability fallback is an
  environment concern, not coordination logic).
* Exceptions raised by the coordination pipeline itself inside
  `_execute_task`'s try-block are modelled by an `Option String` parameter
  (`none` = no exception).
-/

namespace MultiAgent

/-- `AgentType` enum from the source. -/
inductive AgentType where
  | research | development | automation | analysis
  | communication | creative | system | coordination
deriving DecidableEq

/-- `TaskPriority` enum (`LOW = 1` … `EMERGENCY = 5`). -/
inductive TaskPriority where
  | low | medium | high | critical | emergency
deriving DecidableEq

/-- Integer value of a priority, as in the Python `Enum`. -/
def TaskPriority.value : TaskPriority → ℤ
  | .low => 1
  | .medium => 2
  | .high => 3
  | .critical => 4
  | .emergency => 5

/-- `TaskPriority(i)`: the Python enum constructor, which raises `ValueError`
on integers outside 1–5 (modelled as `none`). -/
def TaskPriority.ofInt : ℤ → Option TaskPriority
  | 1 => some .low
  | 2 => some .medium
  | 3 => some .high
  | 4 => some .critical
  | 5 => some .emergency
  | _ => none

/-- `TaskStatus` enum from the source. -/
inductive TaskStatus where
  | pending | assigned | in_progress | waiting
  | completed | failed | cancelled
deriving DecidableEq

/-- Result dict returned by one `duckbot_ai.enhanced_request` call:
`{success, result, error}`.  The `result` payload is kept as an opaque
string. -/
structure AIResult where
  success : Bool
  res : String := ""
  error : Option String := none
deriving DecidableEq

/-- The `result` entry of an execution-result dict: either the AI payload or
an embedded error dict (e.g. `{"error": "Integration failed"}`). -/
inductive ResultVal where
  | payload (s : String)
  | errorVal (e : String)
deriving DecidableEq

/-- Execution-result dict built by `_execute_single_agent_task`,
`_execute_collaborative_task` and `_execute_hierarchical_collaboration`.
Absent dict keys are modelled by `none` / `[]` defaults. -/
structure ExecResult where
  success : Bool
  result : Option ResultVal := none
  error : Option String := none
  agent_id : Option String := none
  execution_type : Option String := none
  collaboration_id : Option String := none
  participating_agents : List String := []
  subtask_results : List AIResult := []
deriving DecidableEq

/-- Recognized keys of the task `context` dict (spec §3); `estimated_subtasks`
defaults to 0 exactly as `context.get('estimated_subtasks', 0)` does. -/
structure TaskCtx (σ : Type) where
  required_capabilities : List σ := []
  specializations : List σ := []
  estimated_subtasks : ℕ := 0
deriving DecidableEq

/-- The `Agent` dataclass. -/
structure Agent (σ : Type) where
  agent_id : String := ""
  agent_type : AgentType := .research
  name : String := ""
  description : String := ""
  capabilities : List σ := []
  specializations : List σ := []
  current_task : Option String := none
  status : String := "idle"
  load_factor : ℚ := 0
  success_rate : ℚ := 1
  last_active : ℚ := 0
  total_tasks_completed : ℕ := 0
  average_completion_time : ℚ := 0
  preferred_models : List String := []
deriving DecidableEq

/-- The `Task` dataclass. -/
structure Task (σ : Type) where
  task_id : String := ""
  title : String := ""
  description : String := ""
  task_type : String := ""
  priority : TaskPriority := .medium
  status : TaskStatus := .pending
  created_at : ℚ := 0
  updated_at : ℚ := 0
  assigned_agent : Option String := none
  context : TaskCtx σ := {}
  result : Option ExecResult := none
  error_message : Option String := none
  estimated_duration : ℚ := 300
  actual_duration : Option ℚ := none
deriving DecidableEq

/-! ### Substring search (for `'collaboration' in description.lower()`) -/

/-- `leadsCS n h` decides whether char list `n` is an initial segment of `h`. -/
def leadsCS : List Char → List Char → Bool
  | [], _ => true
  | _ :: _, [] => false
  | c :: cs, d :: ds => c == d && leadsCS cs ds

/-- `insideCS n h` decides whether char list `n` occurs contiguously in `h`. -/
def insideCS (n : List Char) : List Char → Bool
  | [] => n.isEmpty
  | d :: ds => leadsCS n (d :: ds) || insideCS n ds

/-- Python's `str.lower()`, applied characterwise (the descriptions involved
are ASCII, where `Char.toLower` agrees with `str.lower`). -/
def lowerChars (s : String) : List Char := s.toList.map Char.toLower

/-- Python's `needle in hay.lower()` on strings. -/
def containsLowered (hay needle : String) : Bool :=
  insideCS needle.toList (lowerChars hay)

/-! ### `_task_requires_collaboration` -/

/-- `_task_requires_collaboration`: at least two of five complexity
indicators hold (Python sums a list of booleans). -/
def taskRequiresCollaboration {σ : Type} (t : Task σ) : Bool :=
  let indicators : List Bool :=
    [ decide (500 < t.description.length),
      decide (3 < t.context.estimated_subtasks),
      decide (3 < t.context.required_capabilities.length),
      decide (t.priority = .high ∨ t.priority = .critical),
      containsLowered t.description "collaboration" ]
  decide (2 ≤ indicators.count true)

/-- The i-th complexity indicator of claim C6, as a proposition. -/
def complexityIndicator {σ : Type} (t : Task σ) : Fin 5 → Prop
  | 0 => 500 < t.description.length
  | 1 => 3 < t.context.estimated_subtasks
  | 2 => 3 < t.context.required_capabilities.length
  | 3 => t.priority = .high ∨ t.priority = .critical
  | 4 => containsLowered t.description "collaboration" = true

instance {σ : Type} (t : Task σ) (i : Fin 5) :
    Decidable (complexityIndicator t i) := by
  unfold complexityIndicator
  match i with
  | 0 => exact inferInstance
  | 1 => exact inferInstance
  | 2 => exact inferInstance
  | 3 => exact inferInstance
  | 4 => exact inferInstance

/-! ### Performance tracking (`_update_agent_performance`) -/

/-- `_update_agent_performance`: online update of success rate and average
completion time.  The task counter itself is incremented by the caller's
`finally` block (see `cleanupAgent`/`recordOutcome`).  Python's
`if task.actual_duration:` is a truthiness test: both `None` and `0.0` skip
the average update; a prior average of exactly `0` is replaced by the raw
duration instead of averaged. -/
def updateAgentPerformance {σ : Type} (a : Agent σ) (t : Task σ)
    (success : Bool) : Agent σ :=
  let total : ℚ := (a.total_tasks_completed : ℚ) + 1
  let sr : ℚ :=
    if success then
      (a.success_rate * (a.total_tasks_completed : ℚ) + 1) / total
    else
      a.success_rate * (a.total_tasks_completed : ℚ) / total
  let avg : ℚ :=
    match t.actual_duration with
    | some d =>
        if d ≠ 0 then
          (if a.average_completion_time = 0 then d
           else
             (a.average_completion_time * (a.total_tasks_completed : ℚ) + d) /
               total)
        else a.average_completion_time
    | none => a.average_completion_time
  { a with success_rate := sr, average_completion_time := avg }

/-! ### Load-factor bookkeeping (`_assign_task_to_agent` / `_execute_task`) -/

/-- Load increment on assignment: `min(1.0, load_factor + 0.3)`. -/
def assignLoad (lf : ℚ) : ℚ := min 1 (lf + 3/10)

/-- Load decrement on completion cleanup: `max(0.0, load_factor - 0.3)`. -/
def releaseLoad (lf : ℚ) : ℚ := max 0 (lf - 3/10)

/-- The two operations of claim C8. -/
inductive LoadOp where
  | assign | release
deriving DecidableEq

/-- Apply one load operation. -/
def applyLoadOp (lf : ℚ) : LoadOp → ℚ
  | .assign => assignLoad lf
  | .release => releaseLoad lf

/-! ### Task/agent state transitions of the scheduler and execution path -/

/-- `_assign_task_to_agent`: task becomes `assigned`, agent records the
current task and takes on load. -/
def assignTaskToAgent {σ : Type} (t : Task σ) (a : Agent σ) (now : ℚ) :
    Task σ × Agent σ :=
  ({ t with assigned_agent := some a.agent_id, status := .assigned,
            updated_at := now },
   { a with current_task := some t.task_id, status := "assigned",
            load_factor := assignLoad a.load_factor })

/-- Start of `_execute_task`'s try-block: task moves to `in_progress`. -/
def startExecutionTask {σ : Type} (t : Task σ) : Task σ :=
  { t with status := .in_progress }

/-- Start of `_execute_task`'s try-block: agent set to working. -/
def startAgent {σ : Type} (a : Agent σ) (startT : ℚ) : Agent σ :=
  { a with status := "working", last_active := startT }

/-- Completion branch of `_execute_task`: status `completed`, result
recorded. -/
def completeTask {σ : Type} (t : Task σ) (res : ExecResult) (endT : ℚ) :
    Task σ :=
  { t with status := .completed, result := some res, updated_at := endT }

/-- Exception branch of `_execute_task`: status `failed`, error message
recorded. -/
def failTask {σ : Type} (t : Task σ) (e : String) (endT : ℚ) : Task σ :=
  { t with status := .failed, error_message := some e, updated_at := endT }

/-- `finally` block of `_execute_task`: agent reset to idle, load released,
task counter incremented. -/
def cleanupAgent {σ : Type} (a : Agent σ) : Agent σ :=
  { a with current_task := none, status := "idle",
           load_factor := releaseLoad a.load_factor,
           total_tasks_completed := a.total_tasks_completed + 1 }

/-- One recorded task outcome as seen by the execution path: the performance
update of `_update_agent_performance` followed by the `finally` cleanup
(which performs the `total_tasks_completed += 1`). -/
def recordOutcome {σ : Type} (a : Agent σ) (t : Task σ) (success : Bool) :
    Agent σ :=
  cleanupAgent (updateAgentPerformance a t success)

/-! ### Execution of tasks (`_execute_single_agent_task`,
`_execute_hierarchical_collaboration`, `_execute_collaborative_task`,
`_execute_task`) -/

/-- `_execute_single_agent_task`: every exception of the execution capability
is caught and converted into a `success=False` dict; a capability reply with
`success=False` is likewise repackaged (error defaulting to
"Unknown error"). -/
def executeSingleAgentTask {σ : Type} (a : Agent σ)
    (outcome : Except String AIResult) : ExecResult :=
  match outcome with
  | .error e =>
      { success := false, error := some e, agent_id := some a.agent_id }
  | .ok r =>
      if r.success then
        { success := true, result := some (.payload r.res),
          agent_id := some a.agent_id, execution_type := some "single_agent" }
      else
        { success := false, error := some (r.error.getD "Unknown error"),
          agent_id := some a.agent_id }

/-- `_execute_subtask`: a raised exception is captured as a
`success=False/error` value; a returned dict is passed through unchanged. -/
def executeSubtask (outcome : Except String AIResult) : AIResult :=
  match outcome with
  | .ok r => r
  | .error e => { success := false, error := some e }

/-- `_execute_hierarchical_collaboration`: decomposition, fan-out of one
subtask per additional agent (outcomes joined as values), integration over
all outcomes.  `integ` is the integration call of the execution capability,
applied to the per-agent entries of `integration_context`. -/
def executeHierarchical (addIds allIds : List String) (collabId : String)
    (decompOutcome : Except String AIResult)
    (subOutcomes : List (Except String AIResult))
    (integ : List (String × AIResult) → Except String AIResult) : ExecResult :=
  match decompOutcome with
  | .error e =>
      { success := false, error := some e,
        execution_type := some "hierarchical_collaboration" }
  | .ok dr =>
      if dr.success then
        let gathered := subOutcomes.map executeSubtask
        match integ (addIds.zip gathered) with
        | .error e =>
            { success := false, error := some e,
              execution_type := some "hierarchical_collaboration" }
        | .ok fr =>
            { success := true,
              result := some (if fr.success then .payload fr.res
                              else .errorVal "Integration failed"),
              collaboration_id := some collabId,
              participating_agents := allIds,
              execution_type := some "hierarchical_collaboration",
              subtask_results := gathered }
      else
        { success := false, error := some "Task decomposition failed" }

/-- `_execute_collaborative_task`: creates the collaboration record, runs the
hierarchical protocol (which catches its own exceptions and so never raises),
then marks the collaboration `completed`.  The returned pair is the execution
result together with the collaboration's final status. -/
def executeCollaborative (primaryId : String) (addIds : List String)
    (collabId : String) (decompOutcome : Except String AIResult)
    (subOutcomes : List (Except String AIResult))
    (integ : List (String × AIResult) → Except String AIResult) :
    ExecResult × String :=
  (executeHierarchical addIds (primaryId :: addIds) collabId decompOutcome
    subOutcomes integ,
   "completed")

/-- Outcomes of all execution-capability calls a single `_execute_task` run
can make. -/
structure CapOutcomes where
  single : Except String AIResult
  decomp : Except String AIResult
  subs : List (Except String AIResult)
  integ : List (String × AIResult) → Except String AIResult

/-- `_execute_task`: moves the task to `in_progress`, runs the collaborative
or single-agent branch (neither of which raises, since both catch all
exceptions and return error dicts), marks the task `completed` with the
returned dict, and in the `finally` block releases the agent.  The `failed`
branch fires only when the pipeline itself raises (modelled by
`pipelineExc`, e.g. a persistence write failing); the capability outcomes in
`cap` can never trigger it. -/
def executeTaskFull {σ : Type} [DecidableEq σ] (t : Task σ) (a : Agent σ)
    (startT endT : ℚ) (cap : CapOutcomes) (addIds : List String)
    (collabId : String) (pipelineExc : Option String) : Task σ × Agent σ :=
  let dur := endT - startT
  let t1 := startExecutionTask t
  let a1 := startAgent a startT
  match pipelineExc with
  | some e =>
      let t2 := failTask { t1 with actual_duration := some dur } e endT
      (t2, cleanupAgent (updateAgentPerformance a1 t2 false))
  | none =>
      let res :=
        if taskRequiresCollaboration t1 then
          (executeCollaborative a1.agent_id addIds collabId cap.decomp
            cap.subs cap.integ).1
        else executeSingleAgentTask a1 cap.single
      let t2 : Task σ := { t1 with actual_duration := some dur }
      let a2 := updateAgentPerformance a1 t2 true
      (completeTask t2 res endT, cleanupAgent a2)

/-- Status transitions performed by the coordinator on a task: assignment by
the scheduler (only dequeued `pending` tasks reach
`_process_task_assignment`), execution start, and the completion/failure
branches of `_execute_task`. -/
inductive CoordStep {σ : Type} : Task σ → Task σ → Prop
  | assign (t : Task σ) (a : Agent σ) (now : ℚ) (h : t.status = .pending) :
      CoordStep t (assignTaskToAgent t a now).1
  | start (t : Task σ) (h : t.status = .assigned) :
      CoordStep t (startExecutionTask t)
  | finishOk (t : Task σ) (res : ExecResult) (endT : ℚ)
      (h : t.status = .in_progress) : CoordStep t (completeTask t res endT)
  | finishErr (t : Task σ) (e : String) (endT : ℚ)
      (h : t.status = .in_progress) : CoordStep t (failTask t e endT)

/-- The transitions permitted by the specified lifecycle:
`pending→assigned→in_progress→{completed|failed}`, with `cancelled`
additionally reachable from any non-terminal state. -/
def allowedTransition (s s' : TaskStatus) : Prop :=
  (s = .pending ∧ s' = .assigned) ∨
  (s = .assigned ∧ s' = .in_progress) ∨
  (s = .in_progress ∧ (s' = .completed ∨ s' = .failed)) ∨
  ((s ≠ .completed ∧ s ≠ .failed ∧ s ≠ .cancelled) ∧ s' = .cancelled)

/-! ### Task progress (`_calculate_task_progress`, `GetTaskStatus`) -/

/-- `_calculate_task_progress`, with `now` standing for `time.time()`:
100 for `completed`, 0 for `failed`, a time-based estimate capped at 90 for
`in_progress` (50 when no positive estimate), and 0 for every other
status. -/
def calculateTaskProgress {σ : Type} (now : ℚ) (t : Task σ) : ℚ :=
  if t.status = .completed then 100
  else if t.status = .failed then 0
  else if t.status = .in_progress then
    (if 0 < t.estimated_duration then
       min 90 ((now - t.created_at) / t.estimated_duration * 100)
     else 50)
  else 0

/-- The fields of the JSON object `GetTaskStatus` returns for a known
task. -/
structure StatusReport where
  status : TaskStatus
  assigned_agent : Option String
  progress : ℚ
  result : Option ExecResult
deriving DecidableEq

/-- `GetTaskStatus`: report for a known task id, `none` for the
`{'error': 'Task not found'}` reply. -/
def getTaskStatus {σ : Type} (now : ℚ) (tasks : List (String × Task σ))
    (tid : String) : Option StatusReport :=
  (tasks.lookup tid).map fun t =>
    { status := t.status, assigned_agent := t.assigned_agent,
      progress := calculateTaskProgress now t, result := t.result }

/-! ### Task submission (`SubmitTask`) -/

/-- `SubmitTask`: builds a fresh `pending` task.  `newId` is the
`uuid.uuid4()` string generated this call (its non-emptiness and uniqueness
are properties of the uuid library), `parse` is `json.loads` restricted to
the recognized context keys (`none` = raise).  An invalid priority or an
unparseable non-empty context string raises inside the `try`, so the handler
returns `""` and the task map is untouched. -/
def submitTask {σ : Type} (tasks : List (String × Task σ)) (newId : String)
    (now : ℚ) (title description task_type : String) (priority : ℤ)
    (contextRaw : String) (parse : String → Option (TaskCtx σ)) :
    String × List (String × Task σ) :=
  match TaskPriority.ofInt priority with
  | none => ("", tasks)
  | some p =>
      match (if contextRaw = "" then some {} else parse contextRaw) with
      | none => ("", tasks)
      | some ctx =>
          (newId,
           (newId,
            { task_id := newId, title := title, description := description,
              task_type := task_type, priority := p, status := .pending,
              created_at := now, updated_at := now, context := ctx }) :: tasks)

/-! ### Agent selection (`_select_best_agent`, `_agent_can_handle_task`,
`_calculate_agent_score`) -/

/-- The static `task_type_mapping` table in `_agent_can_handle_task`
(`dict.get` with default `[]`). -/
def taskTypeMapping : String → List AgentType
  | "research" => [.research, .analysis]
  | "development" => [.development, .automation]
  | "analysis" => [.analysis, .research]
  | "automation" => [.automation, .system]
  | "communication" => [.communication, .creative]
  | "creative" => [.creative, .communication]
  | "system" => [.system, .automation]
  | _ => []

/-- `_agent_can_handle_task`: with declared `required_capabilities`, at least
50% coverage of the required set; otherwise the task-type table (coordination
agents always type-eligible). -/
def agentCanHandleTask {σ : Type} [DecidableEq σ] (a : Agent σ) (t : Task σ) :
    Bool :=
  let reqs := t.context.required_capabilities
  if reqs ≠ [] then
    let required := reqs.toFinset
    let overlap := (a.capabilities.toFinset ∩ required).card
    decide ((1 : ℚ)/2 ≤ (overlap : ℚ) / required.card)
  else
    decide (a.agent_type ∈ taskTypeMapping t.task_type ∨
            a.agent_type = .coordination)

/-- Availability filter of `_select_best_agent`: idle status, load factor
below the `load_balance_threshold` (0.8), and capability match. -/
def eligibleAgent {σ : Type} [DecidableEq σ] (a : Agent σ) (t : Task σ) :
    Bool :=
  a.status == "idle" && decide (a.load_factor < 4/5) && agentCanHandleTask a t

/-- `_calculate_agent_score`, with `now` standing for `time.time()`. -/
def calculateAgentScore {σ : Type} [DecidableEq σ] (now : ℚ) (a : Agent σ)
    (t : Task σ) : ℚ :=
  let s1 := a.success_rate * 30
  let s2 := (1 - a.load_factor) * 20
  let taskCaps := t.context.required_capabilities.toFinset
  let s3 := if taskCaps ≠ ∅ then
      ((taskCaps ∩ a.capabilities.toFinset).card : ℚ) / taskCaps.card * 25
    else 0
  let taskSpecs := t.context.specializations.toFinset
  let s4 := if taskSpecs ≠ ∅ then
      (let overlap := (taskSpecs ∩ a.specializations.toFinset).card
       if 0 < overlap then (overlap : ℚ) * 15 else 0)
    else 0
  let s5 := if now - a.last_active < 3600 then (10 : ℚ) else 0
  let s6 := if 0 < a.average_completion_time then
      (if t.priority = .high ∨ t.priority = .critical ∨ t.priority = .emergency
       then min 1 (300 / a.average_completion_time) * 10 else 0)
    else 0
  s1 + s2 + s3 + s4 + s5 + s6

/-- Pick the highest-scoring agent from a non-empty candidate list.  The
source sorts the scored list descending with Python's stable sort and takes
element 0, which is the first-encountered agent attaining the maximal score;
this left fold (replace only on strictly greater score) computes the same. -/
def selectFromScored {σ : Type} [DecidableEq σ] (now : ℚ) (t : Task σ)
    (a : Agent σ) (rest : List (Agent σ)) : Agent σ :=
  rest.foldl
    (fun best x =>
      if calculateAgentScore now best t < calculateAgentScore now x t then x
      else best) a

/-- `_select_best_agent`: filter by eligibility, then take the best-scoring
candidate (none if no candidate survives the filter). -/
def selectBestAgent {σ : Type} [DecidableEq σ] (now : ℚ)
    (agents : List (Agent σ)) (t : Task σ) : Option (Agent σ) :=
  match agents.filter (fun a => eligibleAgent a t) with
  | [] => none
  | a :: rest => some (selectFromScored now t a rest)

/-- Agent A of the C1 scenario: idle, capabilities `{code_generation}`,
success rate 0.9, load factor 0. -/
def agentA : Agent String :=
  { agent_id := "A", capabilities := ["code_generation"],
    success_rate := 9/10 }

/-- Agent B of the C1 scenario: idle, no capabilities, success rate 0.9,
load factor 0. -/
def agentB : Agent String :=
  { agent_id := "B", capabilities := [], success_rate := 9/10 }

/-- The C1 task: context requires `code_generation`. -/
def taskAB : Task String :=
  { task_id := "t1", context := { required_capabilities := ["code_generation"] } }

/-- Concrete pending task for the C2 lifecycle witness. -/
def c2Task : Task ℕ := { task_id := "t-c2" }

/-- Concrete agent for the C2 lifecycle witness. -/
def c2Agent : Agent ℕ := { agent_id := "a-c2" }

/-- Concrete non-collaborative task for C3 (short description, medium
priority: zero complexity indicators). -/
def c3Task : Task ℕ := { task_id := "t-c3", description := "fix one bug" }

/-- Concrete agent for C3. -/
def c3Agent : Agent ℕ := { agent_id := "a-c3" }

/-- Capability outcomes for the C3 counterexample: the execution capability
raises on the single-agent call. -/
def c3Cap : CapOutcomes :=
  { single := .error "boom", decomp := .ok { success := true }, subs := [],
    integ := fun _ => .ok { success := true } }

/-- Collaborative task for C3's decomposition-failure half: priority critical
and an explicit collaboration request give two complexity indicators. -/
def c3CollabTask : Task ℕ :=
  { task_id := "t-c3c", description := "collaboration needed",
    priority := .critical }

/-- Capability outcomes whose decomposition call reports failure. -/
def c3CollabCap : CapOutcomes :=
  { single := .ok { success := true },
    decomp := .ok { success := false, error := some "no subtasks" },
    subs := [], integ := fun _ => .ok { success := true } }

/-- Integration capability used by the C4 witness: reports success with a
fixed payload. -/
def c4Integ : List (String × AIResult) → Except String AIResult :=
  fun _ => .ok { success := true, res := "integrated" }

/-- Concrete agent for the C7 counterexample: one prior completed task but a
prior average completion time of exactly 0. -/
def c7Agent : Agent ℕ := { agent_id := "a-c7", total_tasks_completed := 1 }

/-- Concrete task for the C7 counterexample: actual duration 5. -/
def c7Task : Task ℕ := { task_id := "t-c7", actual_duration := some 5 }

/-- Concrete agent for the C7 witness: nonzero prior average. -/
def c7wAgent : Agent ℕ :=
  { agent_id := "a-c7w", total_tasks_completed := 1,
    average_completion_time := 2 }

/-- Concrete task for the C7 witness: actual duration 4. -/
def c7wTask : Task ℕ := { task_id := "t-c7w", actual_duration := some 4 }

/-- Concrete pending task for the C9 counterexample: estimated duration 100,
created at time 0. -/
def c9Pending : Task ℕ :=
  { task_id := "t-c9p", estimated_duration := 100, created_at := 0 }

/-- Concrete in-progress task for C9's examples. -/
def c9InProgress : Task ℕ :=
  { task_id := "t-c9i", status := .in_progress, estimated_duration := 100,
    created_at := 0 }

/-- Context parser for the C10 witness: rejects every non-empty string. -/
def c10Parse : String → Option (TaskCtx ℕ) := fun _ => none

/-- Family of eligible agents with `n` distinct specializations, used to show
the specialization score term is unbounded (tags instantiated at `ℕ`). -/
def specAgentN (n : ℕ) : Agent ℕ :=
  { agent_id := "spec", agent_type := .research, specializations := List.range n,
    success_rate := 0 }

/-- Family of tasks requesting the same `n` specializations. -/
def specTaskN (n : ℕ) : Task ℕ :=
  { task_id := "spec-task", task_type := "research",
    context := { specializations := List.range n } }

end MultiAgent

namespace MultiAgent

section

attribute [local semireducible] Rat.mul Rat.inv Rat.add Rat.sub

/-- Unfolding lemma for `selectFromScored` on a cons cell. -/
theorem selectFromScored_cons {σ : Type} [DecidableEq σ] (now : ℚ)
    (t : Task σ) (a x : Agent σ) (xs : List (Agent σ)) :
    selectFromScored now t a (x :: xs) =
      selectFromScored now t
        (if calculateAgentScore now a t < calculateAgentScore now x t then x
         else a) xs := by
  by_cases h : calculateAgentScore now a t < calculateAgentScore now x t <;>
    simp [selectFromScored, h]

/-- Helper: the fold underlying `selectFromScored` returns a member of the
candidate list. -/
theorem selectFromScored_mem {σ : Type} [DecidableEq σ] (now : ℚ) (t : Task σ)
    (a : Agent σ) (rest : List (Agent σ)) :
    selectFromScored now t a rest ∈ a :: rest := by
  induction rest generalizing a with
  | nil => simp [selectFromScored]
  | cons x xs ih =>
      rw [selectFromScored_cons]
      by_cases h : calculateAgentScore now a t < calculateAgentScore now x t
      · rw [if_pos h]
        exact List.mem_cons.mpr (Or.inr (ih x))
      · rw [if_neg h]
        rcases List.mem_cons.mp (ih a) with h1 | h1
        · exact List.mem_cons.mpr (Or.inl h1)
        · exact List.mem_cons.mpr (Or.inr (List.mem_cons.mpr (Or.inr h1)))

/-- Helper: the selected candidate's score dominates every candidate. -/
theorem selectFromScored_max {σ : Type} [DecidableEq σ] (now : ℚ) (t : Task σ)
    (a : Agent σ) (rest : List (Agent σ)) :
    ∀ b ∈ a :: rest, calculateAgentScore now b t ≤
      calculateAgentScore now (selectFromScored now t a rest) t := by
  induction rest generalizing a with
  | nil => simp [selectFromScored]
  | cons x xs ih =>
      intro b hb
      rw [selectFromScored_cons]
      by_cases h : calculateAgentScore now a t < calculateAgentScore now x t
      · rw [if_pos h]
        rcases List.mem_cons.mp hb with heq | hb1
        · rw [heq]
          exact le_trans h.le (ih x x (List.mem_cons_self x xs))
        · exact ih x b hb1
      · rw [if_neg h]
        rcases List.mem_cons.mp hb with heq | hb1
        · rw [heq]
          exact ih a a (List.mem_cons_self a xs)
        · rcases List.mem_cons.mp hb1 with heq2 | hb2
          · rw [heq2]
            exact le_trans (not_lt.mp h) (ih a a (List.mem_cons_self a xs))
          · exact ih a b (List.mem_cons.mpr (Or.inr hb2))

/-- Helper: the selected candidate is the first one attaining the maximal
score (Python's stable descending sort followed by `[0]`). -/
theorem selectFromScored_first {σ : Type} [DecidableEq σ] (now : ℚ)
    (t : Task σ) (a : Agent σ) (rest : List (Agent σ)) :
    ∃ pre post, a :: rest = pre ++ selectFromScored now t a rest :: post ∧
      ∀ b ∈ pre, calculateAgentScore now b t <
        calculateAgentScore now (selectFromScored now t a rest) t := by
  induction rest generalizing a with
  | nil => exact ⟨[], [], by simp [selectFromScored], by simp⟩
  | cons x xs ih =>
      by_cases h : calculateAgentScore now a t < calculateAgentScore now x t
      · have hsel : selectFromScored now t a (x :: xs) =
            selectFromScored now t x xs := by
          rw [selectFromScored_cons, if_pos h]
        obtain ⟨pre, post, heq, hlt⟩ := ih x
        refine ⟨a :: pre, post, ?_, ?_⟩
        · rw [hsel]; simpa using congrArg (a :: ·) heq
        · intro b hb
          rw [hsel]
          rcases List.mem_cons.mp hb with rfl | hb1
          · exact lt_of_lt_of_le h
              (selectFromScored_max now t x xs x (List.mem_cons_self _ _))
          · exact hlt b hb1
      · have hsel : selectFromScored now t a (x :: xs) =
            selectFromScored now t a xs := by
          rw [selectFromScored_cons, if_neg h]
        obtain ⟨pre, post, heq, hlt⟩ := ih a
        cases pre with
        | nil =>
            simp only [List.nil_append] at heq
            obtain ⟨hhead, -⟩ := List.cons.inj heq
            refine ⟨[], x :: xs, ?_, by simp⟩
            rw [hsel, List.nil_append, ← hhead]
        | cons p ps =>
            simp only [List.cons_append] at heq
            obtain ⟨hpa, htail⟩ := List.cons.inj heq
            subst hpa
            refine ⟨a :: x :: ps, post, ?_, ?_⟩
            · rw [hsel]
              simpa [List.cons_append] using congrArg (fun l => a :: x :: l) htail
            · intro b hb
              rw [hsel]
              have hpbig : calculateAgentScore now a t <
                  calculateAgentScore now (selectFromScored now t a xs) t :=
                hlt a (List.mem_cons_self _ _)
              rcases List.mem_cons.mp hb with rfl | hb1
              · exact hpbig
              · rcases List.mem_cons.mp hb1 with rfl | hb2
                · exact lt_of_le_of_lt (not_lt.mp h) hpbig
                · exact hlt b (List.mem_cons.mpr (Or.inr hb2))

/-- Helper: any agent returned by `selectBestAgent` passed the eligibility
filter. -/
theorem selectBestAgent_eligible {σ : Type} [DecidableEq σ] (now : ℚ)
    (agents : List (Agent σ)) (t : Task σ) (a : Agent σ)
    (h : selectBestAgent now agents t = some a) :
    eligibleAgent a t = true ∧ a ∈ agents := by
  unfold selectBestAgent at h
  rcases hf : agents.filter (fun a => eligibleAgent a t) with _ | ⟨b, rest⟩
  · rw [hf] at h; exact absurd h (by simp)
  · rw [hf] at h
    have ha : a = selectFromScored now t b rest := by
      simpa using h.symm
    have hmem : a ∈ agents.filter (fun a => eligibleAgent a t) := by
      rw [hf, ha]; exact selectFromScored_mem now t b rest
    have := List.mem_filter.mp hmem
    exact ⟨by simpa using this.2, this.1⟩

/-- **C1.** Any agent returned by `_select_best_agent` is idle, has load
factor below 0.8, and matches capabilities: with a non-empty
`required_capabilities` context its coverage of the required set is at least
50%, otherwise its type is in the static task-type table or it is a
coordination agent.  Moreover, in the concrete scenario with idle agents A
(`capabilities={code_generation}`) and B (`capabilities={}`), both with
success rate 0.9 and load factor 0, and a task requiring `code_generation`,
the selector returns A. -/
theorem c1_selector_eligibility :
    (∀ (σ : Type) (_inst : DecidableEq σ) (now : ℚ) (agents : List (Agent σ))
       (t : Task σ) (a : Agent σ),
       selectBestAgent now agents t = some a →
       a.status = "idle" ∧ a.load_factor < 4/5 ∧
       (t.context.required_capabilities ≠ [] →
          (1 : ℚ)/2 ≤
            ((a.capabilities.toFinset ∩
               t.context.required_capabilities.toFinset).card : ℚ) /
              t.context.required_capabilities.toFinset.card) ∧
       (t.context.required_capabilities = [] →
          a.agent_type ∈ taskTypeMapping t.task_type ∨
          a.agent_type = .coordination)) ∧
    selectBestAgent 0 [agentA, agentB] taskAB = some agentA := by
  constructor
  · intro σ inst now agents t a h
    obtain ⟨helig, -⟩ := selectBestAgent_eligible now agents t a h
    unfold eligibleAgent at helig
    simp only [Bool.and_eq_true, beq_iff_eq, decide_eq_true_eq] at helig
    obtain ⟨⟨hidle, hload⟩, hcap⟩ := helig
    refine ⟨hidle, hload, ?_, ?_⟩
    · intro hne
      unfold agentCanHandleTask at hcap
      rw [if_pos hne] at hcap
      simpa [Finset.inter_comm] using hcap
    · intro hnil
      unfold agentCanHandleTask at hcap
      rw [if_neg (by simp [hnil])] at hcap
      simpa using hcap
  · decide

/-- Witness for C1's universal part at the concrete A/B scenario. -/
theorem c1_witness :
    agentA.status = "idle" ∧ agentA.load_factor < 4/5 ∧
    (taskAB.context.required_capabilities ≠ [] →
       (1 : ℚ)/2 ≤
         ((agentA.capabilities.toFinset ∩
            taskAB.context.required_capabilities.toFinset).card : ℚ) /
           taskAB.context.required_capabilities.toFinset.card) ∧
    (taskAB.context.required_capabilities = [] →
       agentA.agent_type ∈ taskTypeMapping taskAB.task_type ∨
       agentA.agent_type = .coordination) :=
  c1_selector_eligibility.1 String inferInstance 0 [agentA, agentB] taskAB
    agentA c1_selector_eligibility.2

/-- Helper: score of the `n`-specialization family (no other term fires, so
the whole score is the base-load term plus the uncapped overlap term). -/
theorem specAgentN_score (n : ℕ) (hn : 0 < n) :
    calculateAgentScore 5000 (specAgentN n) (specTaskN n) = 20 + 15 * n := by
  have hcard : (List.range n).toFinset.card = n := by
    rw [List.card_toFinset, List.dedup_eq_self.mpr (List.nodup_range n),
      List.length_range]
  have hne : (List.range n).toFinset ≠ ∅ :=
    Finset.ne_empty_of_mem (List.mem_toFinset.mpr (List.mem_range.mpr hn))
  simp only [calculateAgentScore, specAgentN, specTaskN, Finset.inter_self,
    hcard, hne]
  norm_num [hn, hn.ne']
  ring

/-- **C5 counterexample.** The specialization-overlap score term is not
capped: along a family of eligible agent/task pairs whose only varying score
contribution is the specialization overlap, the selector's score is
unbounded, so no formula with a capped specialization term can equal
`_calculate_agent_score`. -/
theorem c5_counterexample :
    (∀ n : ℕ, eligibleAgent (specAgentN n) (specTaskN n) = true) ∧
    ¬ ∃ C : ℚ, ∀ n : ℕ,
        calculateAgentScore 5000 (specAgentN n) (specTaskN n) ≤ C := by
  constructor
  · intro n
    simp [eligibleAgent, agentCanHandleTask, specAgentN, specTaskN,
      taskTypeMapping]
  · rintro ⟨C, hC⟩
    obtain ⟨n, hn⟩ := exists_nat_gt C
    have h1 := hC (n + 1)
    rw [specAgentN_score (n + 1) (Nat.succ_pos n)] at h1
    have hcast : (0 : ℚ) ≤ (n : ℚ) := Nat.cast_nonneg n
    push_cast at h1
    linarith

/-- Helper: merging the code's nested specialization guards into the single
positive-overlap guard of the closed-form score. -/
theorem spec_term_merge {σ : Type} [DecidableEq σ] (s u : Finset σ) :
    (if s ≠ ∅ then
       (if 0 < (s ∩ u).card then ((s ∩ u).card : ℚ) * 15 else 0)
     else 0) =
      (if 0 < (s ∩ u).card then ((s ∩ u).card : ℚ) * 15 else 0) := by
  by_cases h : s = ∅
  · simp [h]
  · simp [h]

/-- Helper: merging the code's nested speed-bonus guards into a single
conjunctive guard. -/
theorem speed_term_merge (avg : ℚ) (p : Prop) [Decidable p] :
    (if 0 < avg then (if p then min 1 (300 / avg) * 10 else 0) else 0) =
      (if p ∧ 0 < avg then min 1 (300 / avg) * 10 else 0) := by
  by_cases h1 : 0 < avg <;> by_cases h2 : p <;> simp [h1, h2]

/-- **C5 (amended).** The selector's score equals
`success_rate*30 + (1-load_factor)*20 + capability_coverage*25` (the coverage
term taken as 0 when no required capabilities are declared)
`+ specialization_overlap_count*15` — uncapped, contributed only when the
overlap is positive — `+ 10` if the agent was active within the last hour
`+ 10*min(1, 300/average_completion_time)` for priority high/critical/
emergency with positive average completion time; and the returned agent is
the highest-scoring eligible agent, ties broken by first-encountered order. -/
theorem c5_agent_scoring :
    (∀ (σ : Type) (_inst : DecidableEq σ) (now : ℚ) (a : Agent σ) (t : Task σ),
       calculateAgentScore now a t =
         a.success_rate * 30 + (1 - a.load_factor) * 20
         + (if t.context.required_capabilities.toFinset ≠ ∅ then
              ((t.context.required_capabilities.toFinset ∩
                  a.capabilities.toFinset).card : ℚ) /
                t.context.required_capabilities.toFinset.card * 25
            else 0)
         + (if 0 < ((t.context.specializations.toFinset ∩
                a.specializations.toFinset).card) then
              ((t.context.specializations.toFinset ∩
                  a.specializations.toFinset).card : ℚ) * 15
            else 0)
         + (if now - a.last_active < 3600 then 10 else 0)
         + (if (t.priority = .high ∨ t.priority = .critical ∨
                 t.priority = .emergency) ∧ 0 < a.average_completion_time then
              min 1 (300 / a.average_completion_time) * 10
            else 0)) ∧
    (∀ (σ : Type) (_inst : DecidableEq σ) (now : ℚ) (agents : List (Agent σ))
       (t : Task σ) (a : Agent σ),
       selectBestAgent now agents t = some a →
       a ∈ agents ∧ eligibleAgent a t = true ∧
       (∀ b ∈ agents, eligibleAgent b t = true →
          calculateAgentScore now b t ≤ calculateAgentScore now a t) ∧
       ∃ pre post,
         agents.filter (fun x => eligibleAgent x t) = pre ++ a :: post ∧
         ∀ b ∈ pre, calculateAgentScore now b t < calculateAgentScore now a t) := by
  constructor
  · intro σ _inst now a t
    simp only [calculateAgentScore]
    rw [spec_term_merge, speed_term_merge]
  · intro σ _inst now agents t a h
    obtain ⟨helig, hmem⟩ := selectBestAgent_eligible now agents t a h
    unfold selectBestAgent at h
    rcases hf : agents.filter (fun x => eligibleAgent x t) with _ | ⟨b, rest⟩
    · rw [hf] at h; exact absurd h (by simp)
    · rw [hf] at h
      have ha : selectFromScored now t b rest = a := by simpa using h
      refine ⟨hmem, helig, ?_, ?_⟩
      · intro c hc hcelig
        have hcmem : c ∈ b :: rest := by
          rw [← hf]; exact List.mem_filter.mpr ⟨hc, by simpa using hcelig⟩
        simpa [ha] using selectFromScored_max now t b rest c hcmem
      · obtain ⟨pre, post, heq, hlt⟩ := selectFromScored_first now t b rest
        refine ⟨pre, post, ?_, ?_⟩
        · rw [heq, ha]
        · intro c hc
          have hlt2 := hlt c hc
          rwa [ha] at hlt2

/-- Witness for C5's selection clause at the concrete A/B scenario. -/
theorem c5_witness :
    agentA ∈ [agentA, agentB] ∧ eligibleAgent agentA taskAB = true ∧
    (∀ b ∈ [agentA, agentB], eligibleAgent b taskAB = true →
       calculateAgentScore 0 b taskAB ≤ calculateAgentScore 0 agentA taskAB) ∧
    ∃ pre post,
      [agentA, agentB].filter (fun x => eligibleAgent x taskAB) =
        pre ++ agentA :: post ∧
      ∀ b ∈ pre, calculateAgentScore 0 b taskAB <
        calculateAgentScore 0 agentA taskAB :=
  c5_agent_scoring.2 String inferInstance 0 [agentA, agentB] taskAB agentA
    (by decide)

/-- Helper: a step's source status determines the step's target status
shape. -/
theorem coordStep_allowed {σ : Type} (t t' : Task σ) (hs : CoordStep t t') :
    allowedTransition t.status t'.status := by
  cases hs with
  | assign a now h => exact Or.inl ⟨h, rfl⟩
  | start h => exact Or.inr (Or.inl ⟨h, rfl⟩)
  | finishOk res endT h => exact Or.inr (Or.inr (Or.inl ⟨h, Or.inl rfl⟩))
  | finishErr e endT h => exact Or.inr (Or.inr (Or.inl ⟨h, Or.inr rfl⟩))

/-- **C2.** Every status transition the coordinator performs is an edge of
the lifecycle `pending → assigned → in_progress → {completed | failed}`
(with `cancelled` additionally allowed from non-terminal states); a
`pending` task can only move to `assigned` — never directly to
`in_progress`, `completed` or `failed` — and every coordinator trace is a
valid path through the lifecycle. -/
theorem c2_status_lifecycle :
    (∀ (σ : Type) (t t' : Task σ), CoordStep t t' →
       allowedTransition t.status t'.status) ∧
    (∀ (σ : Type) (t t' : Task σ), CoordStep t t' → t.status = .pending →
       t'.status = .assigned) ∧
    (∀ (σ : Type) (t : Task σ) (l : List (Task σ)),
       List.Chain CoordStep t l →
       List.Chain (fun x y => allowedTransition x.status y.status) t l) := by
  refine ⟨fun σ t t' hs => coordStep_allowed t t' hs, ?_, ?_⟩
  · intro σ t t' hs hp
    cases hs with
    | assign a now h => rfl
    | start h => rw [hp] at h; exact absurd h (by decide)
    | finishOk res endT h => rw [hp] at h; exact absurd h (by decide)
    | finishErr e endT h => rw [hp] at h; exact absurd h (by decide)
  · intro σ t l hc
    exact List.Chain.imp (fun x y hxy => coordStep_allowed x y hxy) hc

/-- Witness for C2 along a concrete pending→assigned→in_progress→completed
trace. -/
theorem c2_witness :
    List.Chain (fun x y => allowedTransition x.status y.status) c2Task
      [(assignTaskToAgent c2Task c2Agent 1).1,
       startExecutionTask (assignTaskToAgent c2Task c2Agent 1).1,
       completeTask (startExecutionTask (assignTaskToAgent c2Task c2Agent 1).1)
         { success := true } 2] :=
  c2_status_lifecycle.2.2 ℕ c2Task _
    (List.Chain.cons (CoordStep.assign c2Task c2Agent 1 rfl)
      (List.Chain.cons (CoordStep.start _ rfl)
        (List.Chain.cons (CoordStep.finishOk _ { success := true } 2 rfl)
          List.Chain.nil)))

/-- The collaboration-routing predicate ignores the status flip performed at
the start of `_execute_task`. -/
theorem taskRequiresCollaboration_status {σ : Type} (t : Task σ)
    (s : TaskStatus) :
    taskRequiresCollaboration { t with status := s } =
      taskRequiresCollaboration t := rfl

/-- **C3 counterexample.** A non-collaborative task whose execution
capability raises ends in status `completed` (with the failure packed into
the result dict), not `failed` as the claim states. -/
theorem c3_counterexample :
    (executeTaskFull c3Task c3Agent 0 10 c3Cap [] "cid" none).1.status =
      TaskStatus.completed ∧
    (executeTaskFull c3Task c3Agent 0 10 c3Cap [] "cid" none).1.result =
      some { success := false, error := some "boom",
             agent_id := some "a-c3" } ∧
    TaskStatus.completed ≠ TaskStatus.failed := by
  exact ⟨by decide, by decide, by decide⟩

/-- **C3 (amended).** When the execution capability reports failure or
raises, the failure is captured as a `success=False` value in the task's
result; the task nevertheless ends in status `completed` (its
`error_message` untouched) and the agent is released back to idle.  A
collaborative task whose decomposition does not succeed likewise ends
`completed`, carrying `{"success": False, "error": "Task decomposition
failed"}` as its result.  (Status `failed` is reserved for exceptions of the
execution pipeline itself.) -/
theorem c3_execution_failure_handling :
    (∀ (σ : Type) (_inst : DecidableEq σ) (t : Task σ) (a : Agent σ)
       (startT endT : ℚ) (cap : CapOutcomes) (addIds : List String)
       (collabId : String),
       taskRequiresCollaboration t = false →
       ((∃ e, cap.single = .error e) ∨
        (∃ r, cap.single = .ok r ∧ r.success = false)) →
       (executeTaskFull t a startT endT cap addIds collabId none).1.status =
         .completed ∧
       (∃ res,
          (executeTaskFull t a startT endT cap addIds collabId none).1.result
            = some res ∧ res.success = false ∧ res.error.isSome = true) ∧
       (executeTaskFull t a startT endT cap addIds collabId
           none).1.error_message = t.error_message ∧
       (executeTaskFull t a startT endT cap addIds collabId none).2.status =
         "idle" ∧
       (executeTaskFull t a startT endT cap addIds collabId
           none).2.current_task = none) ∧
    (∀ (σ : Type) (_inst : DecidableEq σ) (t : Task σ) (a : Agent σ)
       (startT endT : ℚ) (cap : CapOutcomes) (addIds : List String)
       (collabId : String) (dr : AIResult),
       taskRequiresCollaboration t = true →
       cap.decomp = .ok dr → dr.success = false →
       (executeTaskFull t a startT endT cap addIds collabId none).1.status =
         .completed ∧
       (executeTaskFull t a startT endT cap addIds collabId none).1.result =
         some { success := false,
                error := some "Task decomposition failed" } ∧
       (executeTaskFull t a startT endT cap addIds collabId none).2.status =
         "idle") := by
  constructor
  · intro σ _inst t a startT endT cap addIds collabId hnc hfail
    rcases hfail with ⟨e, he⟩ | ⟨r, hr, hrs⟩
    · simp [executeTaskFull, taskRequiresCollaboration_status, hnc, he,
        executeSingleAgentTask, completeTask, cleanupAgent, startExecutionTask,
        startAgent, updateAgentPerformance]
    · simp [executeTaskFull, taskRequiresCollaboration_status, hnc, hr, hrs,
        executeSingleAgentTask, completeTask, cleanupAgent, startExecutionTask,
        startAgent, updateAgentPerformance]
  · intro σ _inst t a startT endT cap addIds collabId dr hcollab hdec hds
    simp [executeTaskFull, taskRequiresCollaboration_status, hcollab, hdec,
      hds, executeCollaborative, executeHierarchical, completeTask,
      cleanupAgent, startExecutionTask, startAgent, updateAgentPerformance]

/-- Witness for C3's two halves at concrete inputs (capability raise;
decomposition failure). -/
theorem c3_witness :
    ((executeTaskFull c3Task c3Agent 0 10 c3Cap [] "cid" none).1.error_message
       = c3Task.error_message ∧
     (executeTaskFull c3Task c3Agent 0 10 c3Cap [] "cid" none).2.status =
       "idle" ∧
     (executeTaskFull c3Task c3Agent 0 10 c3Cap [] "cid"
         none).2.current_task = none) ∧
    ((executeTaskFull c3CollabTask c3Agent 0 10 c3CollabCap [] "cid"
         none).1.status = .completed ∧
     (executeTaskFull c3CollabTask c3Agent 0 10 c3CollabCap [] "cid"
         none).1.result =
       some { success := false, error := some "Task decomposition failed" } ∧
     (executeTaskFull c3CollabTask c3Agent 0 10 c3CollabCap [] "cid"
         none).2.status = "idle") :=
  ⟨by
    have h := c3_execution_failure_handling.1 ℕ inferInstance c3Task c3Agent
      0 10 c3Cap [] "cid" (by decide) (Or.inl ⟨"boom", rfl⟩)
    exact ⟨h.2.2.1, h.2.2.2.1, h.2.2.2.2⟩,
   c3_execution_failure_handling.2 ℕ inferInstance c3CollabTask c3Agent 0 10
     c3CollabCap [] "cid" { success := false, error := some "no subtasks" }
     (by decide) rfl rfl⟩

/-- **C4.** For a hierarchical collaboration whose decomposition succeeds:
subtask errors are captured as values rather than propagated, the
integration call receives one entry per additional agent covering every
subtask outcome, the returned result embeds all captured outcomes, and the
collaboration record always reaches status "completed". -/
theorem c4_collab_partial_failure :
    (∀ e : String,
       executeSubtask (Except.error e) = { success := false, error := some e }) ∧
    (∀ (primaryId collabId : String) (addIds : List String)
       (decompOutcome : Except String AIResult)
       (subOutcomes : List (Except String AIResult))
       (integ : List (String × AIResult) → Except String AIResult),
       (executeCollaborative primaryId addIds collabId decompOutcome
          subOutcomes integ).2 = "completed") ∧
    (∀ (primaryId collabId : String) (addIds : List String) (dr fr : AIResult)
       (subOutcomes : List (Except String AIResult))
       (integ : List (String × AIResult) → Except String AIResult),
       dr.success = true →
       integ (addIds.zip (subOutcomes.map executeSubtask)) = .ok fr →
       (executeCollaborative primaryId addIds collabId (.ok dr) subOutcomes
          integ).1 =
         { success := true,
           result := some (if fr.success then .payload fr.res
                           else .errorVal "Integration failed"),
           collaboration_id := some collabId,
           participating_agents := primaryId :: addIds,
           execution_type := some "hierarchical_collaboration",
           subtask_results := subOutcomes.map executeSubtask }) := by
  refine ⟨fun e => rfl, fun _ _ _ _ _ _ => rfl, ?_⟩
  intro primaryId collabId addIds dr fr subOutcomes integ hds hint
  simp [executeCollaborative, executeHierarchical, hds, hint]

/-- Witness for C4 with one additional agent whose single subtask raises:
the collaboration completes and the integrated result references the
captured error. -/
theorem c4_witness :
    (executeCollaborative "primary" ["helper"] "cid"
        (.ok { success := true }) [.error "subtask boom"] c4Integ).1 =
      { success := true, result := some (.payload "integrated"),
        collaboration_id := some "cid",
        participating_agents := ["primary", "helper"],
        execution_type := some "hierarchical_collaboration",
        subtask_results :=
          [{ success := false, error := some "subtask boom" }] } ∧
    (executeCollaborative "primary" ["helper"] "cid"
        (.ok { success := true }) [.error "subtask boom"] c4Integ).2 =
      "completed" := by
  constructor
  · have h := c4_collab_partial_failure.2.2 "primary" "cid" ["helper"]
      { success := true } { success := true, res := "integrated" }
      [.error "subtask boom"] c4Integ rfl rfl
    simpa [executeSubtask] using h
  · exact c4_collab_partial_failure.2.1 "primary" "cid" ["helper"]
      (.ok { success := true }) [.error "subtask boom"] c4Integ

/-- **C7 counterexample.** With a prior count of 1 and a prior average
completion time of exactly 0, recording a successful outcome of duration 5
sets the average to 5, not to the claimed `(a*n + d)/(n+1) = 5/2`. -/
theorem c7_counterexample :
    (recordOutcome c7Agent c7Task true).average_completion_time = 5 ∧
    (c7Agent.average_completion_time * (c7Agent.total_tasks_completed : ℚ) + 5)
        / ((c7Agent.total_tasks_completed : ℚ) + 1) = 5/2 ∧
    (5 : ℚ) ≠ 5/2 := by
  exact ⟨by decide, by decide, by decide⟩

/-- **C7 (amended).** Recording one task outcome increments
`total_tasks_completed` from `n` to `n+1` and sets
`success_rate = (s*n + (1 if success else 0))/(n+1)`.  The average update is
`(a*n + d)/(n+1)` only when the task's `actual_duration` `d` is nonzero and
the prior average `a` is nonzero; when `a = 0` the average becomes `d`
directly, and when `d` is absent or zero the average is unchanged. -/
theorem c7_performance_update :
    ∀ (σ : Type) (a : Agent σ) (t : Task σ) (success : Bool),
      (recordOutcome a t success).total_tasks_completed =
        a.total_tasks_completed + 1 ∧
      (recordOutcome a t success).success_rate =
        (a.success_rate * (a.total_tasks_completed : ℚ) +
            (if success then 1 else 0)) / ((a.total_tasks_completed : ℚ) + 1) ∧
      (∀ d : ℚ, t.actual_duration = some d → d ≠ 0 →
         a.average_completion_time ≠ 0 →
         (recordOutcome a t success).average_completion_time =
           (a.average_completion_time * (a.total_tasks_completed : ℚ) + d) /
             ((a.total_tasks_completed : ℚ) + 1)) ∧
      (∀ d : ℚ, t.actual_duration = some d → d ≠ 0 →
         a.average_completion_time = 0 →
         (recordOutcome a t success).average_completion_time = d) ∧
      ((t.actual_duration = none ∨ t.actual_duration = some 0) →
         (recordOutcome a t success).average_completion_time =
           a.average_completion_time) := by
  intro σ a t success
  refine ⟨rfl, ?_, ?_, ?_, ?_⟩
  · cases success <;>
      simp [recordOutcome, cleanupAgent, updateAgentPerformance]
  · intro d hd hdz haz
    simp [recordOutcome, cleanupAgent, updateAgentPerformance, hd, hdz, haz]
  · intro d hd hdz haz
    simp [recordOutcome, cleanupAgent, updateAgentPerformance, hd, hdz, haz]
  · rintro (hd | hd) <;>
      simp [recordOutcome, cleanupAgent, updateAgentPerformance, hd]

/-- Witness for C7 at a concrete agent with nonzero prior average. -/
theorem c7_witness :
    (recordOutcome c7wAgent c7wTask true).average_completion_time =
      (c7wAgent.average_completion_time *
          (c7wAgent.total_tasks_completed : ℚ) + 4) /
        ((c7wAgent.total_tasks_completed : ℚ) + 1) :=
  (c7_performance_update ℕ c7wAgent c7wTask true).2.2.1 4 rfl (by decide)
    (by decide)

/-- **C9 counterexample.** A `pending` task is reported at progress 0 by
`_calculate_task_progress`, while the claim's "otherwise" formula
`min(90, elapsed/estimated_duration*100)` predicts 40 for the same task at
elapsed 40 with estimate 100. -/
theorem c9_counterexample :
    calculateTaskProgress 40 c9Pending = 0 ∧
    min (90 : ℚ)
        ((40 - c9Pending.created_at) / c9Pending.estimated_duration * 100) =
      40 ∧
    (0 : ℚ) ≠ 40 := by
  exact ⟨by decide, by decide, by decide⟩

/-- **C9 (amended).** The progress reported by `GetTaskStatus` equals 100
for `completed`, 0 for `failed`, `min(90, elapsed/estimated_duration*100)`
for `in_progress` with positive estimate, 50 for `in_progress` without one,
and 0 for every other status; with estimate 100, an `in_progress` task reads
40 at elapsed 40 and 90 at elapsed 1000. -/
theorem c9_task_progress :
    (∀ (σ : Type) (now : ℚ) (tasks : List (String × Task σ)) (tid : String)
       (t : Task σ), tasks.lookup tid = some t →
       getTaskStatus now tasks tid = some
         { status := t.status, assigned_agent := t.assigned_agent,
           progress := calculateTaskProgress now t, result := t.result }) ∧
    (∀ (σ : Type) (now : ℚ) (t : Task σ),
       (t.status = .completed → calculateTaskProgress now t = 100) ∧
       (t.status = .failed → calculateTaskProgress now t = 0) ∧
       (t.status = .in_progress → 0 < t.estimated_duration →
          calculateTaskProgress now t =
            min 90 ((now - t.created_at) / t.estimated_duration * 100)) ∧
       (t.status = .in_progress → ¬ 0 < t.estimated_duration →
          calculateTaskProgress now t = 50) ∧
       (t.status ≠ .completed → t.status ≠ .failed →
          t.status ≠ .in_progress → calculateTaskProgress now t = 0)) ∧
    calculateTaskProgress 40 c9InProgress = 40 ∧
    calculateTaskProgress 1000 c9InProgress = 90 := by
  refine ⟨?_, ?_, by decide, by decide⟩
  · intro σ now tasks tid t hl
    simp [getTaskStatus, hl]
  · intro σ now t
    refine ⟨?_, ?_, ?_, ?_, ?_⟩ <;> intro h1 <;>
      simp [calculateTaskProgress, h1]
    · intro h2
      simp [h2]
    · intro h2
      simp [h2]
    · intro h2 h3
      simp [h1, h2, h3]

/-- Witness for C9's `GetTaskStatus` clause at a concrete stored task. -/
theorem c9_witness :
    getTaskStatus 40 [("t-c9i", c9InProgress)] "t-c9i" = some
      { status := c9InProgress.status,
        assigned_agent := c9InProgress.assigned_agent,
        progress := calculateTaskProgress 40 c9InProgress,
        result := c9InProgress.result } :=
  c9_task_progress.1 ℕ 40 [("t-c9i", c9InProgress)] "t-c9i" c9InProgress
    (by decide)

/-- **C10.** `SubmitTask` never raises: for a priority in 1–5 and a context
string that is empty or parses, it returns the freshly generated non-empty
task id and stores a `pending` task under that id (leaving all other
entries alone); for an invalid priority or an unparseable context it
returns the empty string with the task map unchanged. -/
theorem c10_submit_task :
    ∀ (σ : Type) (tasks : List (String × Task σ)) (newId : String) (now : ℚ)
      (title description task_type : String) (priority : ℤ)
      (contextRaw : String) (parse : String → Option (TaskCtx σ)),
      newId ≠ "" →
      (∀ p ctx, TaskPriority.ofInt priority = some p →
         (if contextRaw = "" then some {} else parse contextRaw) = some ctx →
         (submitTask tasks newId now title description task_type priority
             contextRaw parse).1 = newId ∧
         (submitTask tasks newId now title description task_type priority
             contextRaw parse).1 ≠ "" ∧
         (submitTask tasks newId now title description task_type priority
             contextRaw parse).2.lookup newId = some
           { task_id := newId, title := title, description := description,
             task_type := task_type, priority := p, status := .pending,
             created_at := now, updated_at := now, context := ctx } ∧
         (∀ k, k ≠ newId →
            (submitTask tasks newId now title description task_type priority
                contextRaw parse).2.lookup k = tasks.lookup k)) ∧
      ((TaskPriority.ofInt priority = none ∨
        (contextRaw ≠ "" ∧ parse contextRaw = none)) →
         submitTask tasks newId now title description task_type priority
           contextRaw parse = ("", tasks)) := by
  intro σ tasks newId now title description task_type priority contextRaw
    parse hid
  constructor
  · intro p ctx hp hctx
    refine ⟨?_, ?_, ?_, ?_⟩
    · simp [submitTask, hp, hctx]
    · simp [submitTask, hp, hctx, hid]
    · simp [submitTask, hp, hctx, List.lookup]
    · intro k hk
      have hbeq : (k == newId) = false := beq_eq_false_iff_ne.mpr hk
      simp [submitTask, hp, hctx, List.lookup, hbeq]
  · rintro (hp | ⟨hne, hparse⟩)
    · simp [submitTask, hp]
    · cases hp2 : TaskPriority.ofInt priority with
      | none => simp [submitTask, hp2]
      | some p => simp [submitTask, hp2, hne, hparse]

/-- Witness for C10 at a valid concrete submission. -/
theorem c10_witness :
    (submitTask ([] : List (String × Task ℕ)) "t1" 0 "ti" "de" "research" 3
        "" c10Parse).1 = "t1" ∧
    (submitTask ([] : List (String × Task ℕ)) "t1" 0 "ti" "de" "research" 3
        "" c10Parse).1 ≠ "" ∧
    (submitTask ([] : List (String × Task ℕ)) "t1" 0 "ti" "de" "research" 3
        "" c10Parse).2.lookup "t1" = some
      { task_id := "t1", title := "ti", description := "de",
        task_type := "research", priority := .high, status := .pending,
        created_at := 0, updated_at := 0, context := {} } ∧
    (∀ k, k ≠ "t1" →
       (submitTask ([] : List (String × Task ℕ)) "t1" 0 "ti" "de" "research"
           3 "" c10Parse).2.lookup k =
         ([] : List (String × Task ℕ)).lookup k) :=
  (c10_submit_task ℕ [] "t1" 0 "ti" "de" "research" 3 "" c10Parse
      (by decide)).1 .high {} rfl (by decide)

/-- Helper for C8: a single load operation preserves `[0,1]`. -/
theorem applyLoadOp_mem (lf : ℚ) (op : LoadOp) (h0 : 0 ≤ lf) (h1 : lf ≤ 1) :
    0 ≤ applyLoadOp lf op ∧ applyLoadOp lf op ≤ 1 := by
  cases op with
  | assign =>
      constructor
      · exact le_min (by norm_num) (by linarith)
      · exact min_le_left _ _
  | release =>
      constructor
      · exact le_max_left _ _
      · exact max_le (by norm_num) (by linarith)

/-- **C8.** Starting from a `load_factor` in `[0,1]`, any sequence of
assignment operations (`min(1, lf+0.3)`, from `_assign_task_to_agent`) and
completion-cleanup operations (`max(0, lf-0.3)`, from `_execute_task`'s
`finally` block) keeps the load factor within `[0,1]`. -/
theorem c8_load_factor_bounded (lf : ℚ) (ops : List LoadOp)
    (h0 : 0 ≤ lf) (h1 : lf ≤ 1) :
    0 ≤ ops.foldl applyLoadOp lf ∧ ops.foldl applyLoadOp lf ≤ 1 := by
  induction ops generalizing lf with
  | nil => exact ⟨h0, h1⟩
  | cons op rest ih =>
      have h := applyLoadOp_mem lf op h0 h1
      simpa using ih (applyLoadOp lf op) h.1 h.2

/-- Witness for C8 at a concrete starting load and operation sequence. -/
theorem c8_witness :
    0 ≤ [LoadOp.assign, LoadOp.assign, LoadOp.assign, LoadOp.assign,
         LoadOp.release].foldl applyLoadOp (1/2 : ℚ) ∧
    [LoadOp.assign, LoadOp.assign, LoadOp.assign, LoadOp.assign,
     LoadOp.release].foldl applyLoadOp (1/2 : ℚ) ≤ 1 :=
  c8_load_factor_bounded (1/2) _ (by norm_num) (by norm_num)

/-- **C6.** `_task_requires_collaboration` returns `true` iff at least two of
the five complexity indicators hold: description longer than 500 characters,
`estimated_subtasks` greater than 3, more than 3 required capabilities,
priority high or critical, and the lowercased description containing the
substring "collaboration". -/
theorem c6_collaboration_routing {σ : Type} (t : Task σ) :
    taskRequiresCollaboration t = true ↔
      2 ≤ (Finset.univ.filter (fun i : Fin 5 => complexityIndicator t i)).card := by
  rw [Finset.card_filter, Fin.sum_univ_five]
  by_cases h0 : 500 < t.description.length <;>
    by_cases h1 : 3 < t.context.estimated_subtasks <;>
      by_cases h2 : 3 < t.context.required_capabilities.length <;>
        by_cases h3 : t.priority = .high ∨ t.priority = .critical <;>
          by_cases h4 : containsLowered t.description "collaboration" = true <;>
            simp [taskRequiresCollaboration, complexityIndicator,
              h0, h1, h2, h3, h4]

end

end MultiAgent
